import Mathlib

/-!
Verification of the LeetCode-agent retry workflow.

This file gives a shallow embedding, in Lean 4, of the control logic of the
repository's retry workflow and its tool surface:

* `src/leetcode_agent/core.py` — `LeetCodeAgent.start` (the `while attempt < 5`
  retry loop), `solve_problem`, `grab_result`, `writeAnswer`;
* `src/leetcode_agent/agent.py` — `AiAgent.chat` (return value only) and
  `AiAgent.execute_tool_call`;
* `src/leetcode_agent/browser.py` — `cleanup_playwright` and
  `PlaywrightManager.__exit__`;
* `src/server.py` — the MCP tool handlers and their shared no-session guard.

External collaborators (the browser page, the language-model provider, the
file system) are modelled as oracles: each point where the Python code
observes the outside world takes the observed outcome as an explicit
argument.  Python exceptions are modelled with `Except`: a function that can
let an exception propagate returns `Except PyError _`; an exception that the
Python code catches is ordinary data in the embedding.
-/

/-- Python exceptions that can propagate out of the embedded functions:
`timeoutError` is Playwright's `TimeoutError` (raised by `inner_text` when the
located element never appears), `indexError` is `list index out of range`
(from `self.wrong_case[-1]` on an empty list), `keyError` is a missing
dictionary key (from `tool_call["name"]` / `tool_call["args"]`). -/
inductive PyError where
  | timeoutError
  | indexError
  | keyError
deriving DecidableEq, Repr

/-- Oracle for one language-model invocation inside `AiAgent.chat`
(agent.py lines 165-211): either the provider returns `response.content`,
or some step of the `try` block raises an exception whose `str` is `msg`. -/
inductive LLMOutcome where
  | reply (text : String)
  | exc (msg : String)
deriving DecidableEq, Repr

/-- Oracle for the result panel that `grab_result` (core.py lines 175-195)
reads after its fixed 10s wait: either the element located by
`//*[@data-layout-path='/ts0/tb1']` renders with inner text `text`, or it
never appears and `inner_text` raises Playwright's `TimeoutError`. -/
inductive PanelRead where
  | panel (text : String)
  | timeout
deriving DecidableEq, Repr

/-- Page actions performed by the embedded browser-driving code.
`clipboardWrite` stands for the `page.evaluate` call that copies the
candidate code to the clipboard in `writeAnswer`; `keyPress` for
`page.keyboard.press`; `click` for a click on the given selector;
`goto` for `page.goto`. -/
inductive PageAction where
  | click (selector : String)
  | clipboardWrite (code : String)
  | keyPress (key : String)
  | goto (url : String)
deriving DecidableEq, Repr

/-- Membership of `needle` in `hay` as a contiguous subsequence: the
embedding of Python's substring test `needle in hay` (used by
`grab_result` for `"Accepted" in result_text`). -/
def containsSeq (needle : List Char) : List Char → Bool
  | [] => needle.isEmpty
  | c :: rest => needle.isPrefixOf (c :: rest) || containsSeq needle rest

/-- Python's `needle in hay` on strings. -/
def strContains (hay needle : String) : Bool :=
  containsSeq needle.data hay.data

/-- Mutable state of a `LeetCodeAgent` instance as far as the retry loop
observes it: `problem_text` and `editor_text` are captured by `grabProblem`
before the loop; `wrong_case` is the list of rejected-verdict panel texts
(`self.wrong_case`), appended to by `grab_result`. -/
structure AgentState where
  problem_text : String
  editor_text : String
  wrong_case : List String
deriving DecidableEq, Repr

/-- Return value of `AiAgent.chat` (agent.py lines 165-211).  The whole body
sits in a `try`: on success the reply `response.content` is returned; on any
exception `e` the `except` branch returns the string
`f"Error generating response: {str(e)}"`.  `chat` therefore never raises.
(The history bookkeeping and tool-call side effects inside `chat` are not
observed by any property below and are not modelled.) -/
def chat (outcome : LLMOutcome) (_user_message : String) : String :=
  match outcome with
  | .reply text => text
  | .exc msg => "Error generating response: " ++ msg

/-- The retry prompt built by `solve_problem` when `attempt > 0`
(core.py lines 208-216), with `{self.wrong_case[-1]}` interpolated. -/
def retryPrompt (wrong_case_last : String) : String :=
  "\n                  the provided code did not work. Please fix it.\n                  and the wrong case is:\n                  "
    ++ wrong_case_last
    ++ "\n                  please try again.\n                  Return ONLY the code without any code block like ```java or ```python, and without any explanations, or comments.\n              "

/-- The first-attempt prompt built by `solve_problem` (core.py lines
218-232), with problem text, editor template and optional last wrong case
interpolated; `none` renders as the literal fallback
`No wrong case provided`. -/
def initialPrompt (problem_text editor_text : String)
    (wrong_case_last : Option String) : String :=
  "\n                Here is the problem description:\n                "
    ++ problem_text
    ++ "\n\n                and the template of the code is:\n                "
    ++ editor_text
    ++ "\n\n                and the wrong case is:\n                "
    ++ (wrong_case_last.getD "No wrong case provided")
    ++ "\n\n                Please analyze the language of the code and return the same language of the code.\n                Return ONLY the code without any code block like ```java or ```python, and without any explanations, or comments.\n                "

/-- `LeetCodeAgent.solve_problem` (core.py lines 197-233).  For
`attempt > 0` it reads `self.wrong_case[-1]` (an `IndexError` if the list is
empty) and sends the retry prompt; for `attempt == 0` it sends the initial
prompt, falling back to `No wrong case provided` when `wrong_case` is empty.
In both branches the value returned is the return value of `chat`,
unchanged: no post-processing of the reply happens here or anywhere on the
path back to the loop. -/
def solve_problem (st : AgentState) (attempt : Nat) (llm : LLMOutcome) :
    Except PyError String :=
  if attempt > 0 then
    match st.wrong_case.getLast? with
    | none => .error .indexError
    | some wc => .ok (chat llm (retryPrompt wc))
  else
    .ok (chat llm (initialPrompt st.problem_text st.editor_text st.wrong_case.getLast?))

/-- `LeetCodeAgent.grab_result` (core.py lines 175-195).  After the fixed
wait it reads the result panel's inner text (a missing panel raises
`TimeoutError`, which propagates: there is no `try` in `grab_result` or in
the loop).  If the text contains `"Accepted"` it returns `True`; otherwise
it appends the text to `self.wrong_case` and returns `False`. -/
def grab_result (st : AgentState) (pr : PanelRead) :
    Except PyError (Bool × AgentState) :=
  match pr with
  | .timeout => .error .timeoutError
  | .panel result_text =>
    if strContains result_text "Accepted" then
      .ok (true, st)
    else
      .ok (false, { st with wrong_case := st.wrong_case ++ [result_text] })

/-- `LeetCodeAgent.writeAnswer` (core.py lines 235-281) as the list of page
actions it performs, in order: click the editor, copy the code to the
clipboard via `page.evaluate`, select all (`Meta+a` on mac, `Control+a`
otherwise), delete, paste, and — only when `autoSubmit` is true — click the
submit button `//button[@data-cid='3']`. -/
def writeAnswer (is_mac : Bool) (result_code : String) (autoSubmit : Bool) :
    List PageAction :=
  let select_all_key := if is_mac then "Meta+a" else "Control+a"
  let paste_key := if is_mac then "Meta+v" else "Control+v"
  [PageAction.click ".view-lines",
   PageAction.clipboardWrite result_code,
   PageAction.keyPress select_all_key,
   PageAction.keyPress "Delete",
   PageAction.keyPress paste_key]
    ++ (if autoSubmit then [PageAction.click "xpath=//button[@data-cid=\x273\x27]"] else [])

/-- The selector of the submit button clicked by `writeAnswer` when
`autoSubmit` is true. -/
def submitButtonSelector : String := "xpath=//button[@data-cid=\x273\x27]"

/-- Environment for one iteration of the retry loop: the outcome of the
`chat` call made by `solve_problem` at this attempt, and the state of the
result panel that `grab_result` will read. -/
structure AttemptEnv where
  llm : LLMOutcome
  panel : PanelRead
deriving DecidableEq, Repr

/-- Observable events of one run of the retry loop, in order:
`solveCall a` — `solve_problem(attempt=a)` was invoked;
`writeCall a code` — `writeAnswer(page, code)` was invoked at attempt `a`
(with its default `autoSubmit=True`);
`successChat` — the post-acceptance `ai_agent.chat(...)` call asking for the
markdown write-up. -/
inductive Event where
  | solveCall (attempt : Nat)
  | writeCall (attempt : Nat) (code : String)
  | successChat
deriving DecidableEq, Repr

/-- Outcome of the retry loop in `LeetCodeAgent.start`:
`solved a` — `grab_result` returned `True` at attempt `a` (the loop `break`);
`exhausted` — the loop condition `attempt < max` became false;
`crashed e` — an uncaught Python exception propagated out of the loop. -/
inductive RunResult where
  | solved (attempt : Nat)
  | exhausted
  | crashed (e : PyError)
deriving DecidableEq, Repr

/-- The body of the `while attempt < 5` loop of `LeetCodeAgent.start`
(core.py lines 93-114), parameterised by the remaining fuel
`maxAttempts - attempt`.  Each iteration: call `solve_problem`, hand the
resulting code to `writeAnswer`, then `grab_result`; on `True` fire the
success `chat` call and `break`; on `False` increment `attempt` and
continue.  An exception from `solve_problem` or `grab_result` propagates
(`crashed`). -/
def runLoopAux (env : Nat → AttemptEnv) :
    Nat → Nat → AgentState → RunResult × AgentState × List Event
  | 0, _, st => (.exhausted, st, [])
  | fuel + 1, attempt, st =>
    match solve_problem st attempt (env attempt).llm with
    | .error e => (.crashed e, st, [.solveCall attempt])
    | .ok result_code =>
      match grab_result st (env attempt).panel with
      | .error e =>
        (.crashed e, st, [.solveCall attempt, .writeCall attempt result_code])
      | .ok (true, st') =>
        (.solved attempt, st',
          [.solveCall attempt, .writeCall attempt result_code, .successChat])
      | .ok (false, st') =>
        match runLoopAux env fuel (attempt + 1) st' with
        | (r, stF, evs) =>
          (r, stF,
            Event.solveCall attempt :: Event.writeCall attempt result_code :: evs)

/-- The retry loop of `LeetCodeAgent.start`, entered with `attempt = 0` and
running while `attempt < maxAttempts`.  The source fixes
`maxAttempts = 5` (`while attempt < 5`); the bound is a parameter here so
the scenario properties can instantiate it. -/
def start_retry_loop (maxAttempts : Nat) (st : AgentState)
    (env : Nat → AttemptEnv) : RunResult × AgentState × List Event :=
  runLoopAux env maxAttempts 0 st

/-- The attempt bound hard-coded in `LeetCodeAgent.start`: `while attempt < 5`. -/
def MAX_ATTEMPTS : Nat := 5

/-- Number of Solver invocations recorded in a trace. -/
def solveCalls (evs : List Event) : Nat :=
  (evs.filter fun e => match e with | .solveCall _ => true | _ => false).length

/-! ## Tool surface of `src/server.py` -/

/-- The module-level message of server.py returned by every page-operation
tool when the global `browser_manager` is `None`. -/
def no_browser_session_message : String :=
  "No browser session found. Please open the browser and access leetcode.com for the user first."

/-- The open browser session held in server.py's global `browser_manager`,
as far as the tool handlers observe it: the platform flag that
`LeetCodeAgent.__init__` derives from `platform.system()` and the problem
text that `grabProblem` reads off the current page. -/
structure Session where
  is_mac : Bool
  problem_text : String
deriving DecidableEq, Repr

/-- server.py `goto_url`: without a session, the fixed no-session message
and no page action; with one, `page.goto(url)` and a navigation message. -/
def goto_url (bm : Option Session) (url : String) : String × List PageAction :=
  match bm with
  | none => (no_browser_session_message, [])
  | some _ => ("Navigated to " ++ url, [PageAction.goto url])

/-- The daily-problem link selector used by
`LeetCodeAgent.navigate_to_daily_problem` (core.py line 138). -/
def daily_problem_link : String :=
  "xpath=//a[contains(@class,\x27group flex flex-col rounded-[8px] duration-300 bg-fill-quaternary dark:bg-fill-quaternary\x27)]"

/-- server.py `go_to_daily_problem`: without a session, the fixed
no-session message and no page action; with one, it delegates to
`LeetCodeAgent.navigate_to_daily_problem` (goto the problem set page, click
the first daily-problem link). -/
def go_to_daily_problem (bm : Option Session) : String × List PageAction :=
  match bm with
  | none => (no_browser_session_message, [])
  | some _ =>
    ("Navigated to daily problem.",
     [PageAction.goto "https://leetcode.com/problemset/",
      PageAction.click daily_problem_link])

/-- server.py `get_problem_description`: without a session, the fixed
no-session message and no page action; with one, it delegates to
`LeetCodeAgent.grabProblem` (which clicks the editor and reads the problem
panel) and wraps the problem text in its prompt. -/
def get_problem_description (bm : Option Session) : String × List PageAction :=
  match bm with
  | none => (no_browser_session_message, [])
  | some s =>
    ("The problem description is: " ++ s.problem_text
       ++ "\nAsk the user if they want me to solve it. If yes, solve the problem and write the code in the code editor on the page.",
     [PageAction.click ".view-lines"])

/-- server.py `write_solution_code`: without a session, the fixed
no-session message and no page action; with one, it calls
`agent.writeAnswer(page, code, autoSubmit=False)` and reports success. -/
def write_solution_code (bm : Option Session) (code : String) :
    String × List PageAction :=
  match bm with
  | none => (no_browser_session_message, [])
  | some s =>
    ("The solution code has been written to the code editor on the page. Please check it.",
     writeAnswer s.is_mac code false)

/-- server.py `close_browser`: without a session it returns its own fixed
message `"Browser has already been closed."` (a different string from
`no_browser_session_message`); with one it runs the cleanup and resets the
global to `None`.  The returned pair is (status message, new value of the
global `browser_manager`). -/
def close_browser (bm : Option Session) : String × Option Session :=
  match bm with
  | none => ("Browser has already been closed.", none)
  | some _ => ("Browser closed.", none)

/-! ## Teardown chain of `src/leetcode_agent/browser.py` -/

/-- One step of the teardown chain in `cleanup_playwright`. -/
inductive TeardownStep where
  | closePage
  | closeContext
  | closeBrowser
  | stopPlaywright
deriving DecidableEq, Repr

/-- Oracle for the teardown: for each step, `some msg` means that the
underlying Playwright call raises an exception rendering as `msg`, `none`
that it succeeds. -/
structure TeardownFaults where
  pageClose : Option String
  contextClose : Option String
  browserClose : Option String
  playwrightStop : Option String
deriving DecidableEq, Repr

/-- `cleanup_playwright` (browser.py lines 81-101) on a full resource tuple
(the `PlaywrightManager.__exit__` path, where page, context, browser and
playwright are all present so every `if` guard passes).  A single
`try`/`except Exception` wraps the whole chain
`page.close(); context.close(); browser.close(); playwright.stop()`: the
first step that raises ends the chain, its exception is caught and printed.
The result is the list of steps attempted, in order, paired with the caught
exception text (`none` when no step raised).  No exception escapes. -/
def cleanup_playwright (f : TeardownFaults) : List TeardownStep × Option String :=
  match f.pageClose with
  | some e => ([.closePage], some e)
  | none =>
    match f.contextClose with
    | some e => ([.closePage, .closeContext], some e)
    | none =>
      match f.browserClose with
      | some e => ([.closePage, .closeContext, .closeBrowser], some e)
      | none =>
        match f.playwrightStop with
        | some e => ([.closePage, .closeContext, .closeBrowser, .stopPlaywright], some e)
        | none => ([.closePage, .closeContext, .closeBrowser, .stopPlaywright], none)

/-- `PlaywrightManager.__exit__` (browser.py lines 157-186): when resources
were acquired it runs `cleanup_playwright(*self.resources)`, then returns
`False` so the body's exception, if any, is never suppressed.  Result:
(return value of `__exit__`, steps attempted, exception caught during
teardown). -/
def playwrightManagerExit (hasResources : Bool) (f : TeardownFaults)
    (_body_raised : Bool) : Bool × List TeardownStep × Option String :=
  if hasResources then
    (false, (cleanup_playwright f).1, (cleanup_playwright f).2)
  else
    (false, [], none)

/-! ## Tool dispatch of `AiAgent.execute_tool_call` (agent.py lines 136-151) -/

/-- The argument of `execute_tool_call` as a Python dict: `name` / `args`
hold the values at keys `"name"` / `"args"`, `none` meaning the key is
absent (so that subscripting raises `KeyError`).  The argument payload
itself is opaque to the dispatch. -/
structure ToolCallArg where
  name : Option String
  args : Option Unit
deriving DecidableEq, Repr

/-- Oracle for the one handler invocation `self.create_file(**tool_args)` /
`self.read_file(**tool_args)` / `self.list_files(**tool_args)`: `ok s` means
the handler returned the string `s`, `exc msg` that the call raised (for
example a `TypeError` from unexpected keyword arguments). -/
inductive CallOutcome where
  | ok (result : String)
  | exc (msg : String)
deriving DecidableEq, Repr

/-- `AiAgent.execute_tool_call` (agent.py lines 136-151).
`tool_call["name"]` and `tool_call["args"]` are read BEFORE the `try`, so a
missing key raises `KeyError` out of the function.  Inside the `try`, the
`if`/`elif` chain dispatches on the tool name; a name outside the three
known tools falls to the `else` branch returning the unknown-tool message;
an exception raised by the selected handler is caught by the `except` and
rendered as an error string. -/
def execute_tool_call (tool_call : ToolCallArg) (handler_call : CallOutcome) :
    Except PyError String :=
  match tool_call.name with
  | none => .error .keyError
  | some tool_name =>
    match tool_call.args with
    | none => .error .keyError
    | some _ =>
      if tool_name = "CreateFile" then
        match handler_call with
        | .ok s => .ok s
        | .exc e => .ok ("❌ Error executing " ++ tool_name ++ ": " ++ e)
      else if tool_name = "ReadFile" then
        match handler_call with
        | .ok s => .ok s
        | .exc e => .ok ("❌ Error executing " ++ tool_name ++ ": " ++ e)
      else if tool_name = "ListFiles" then
        match handler_call with
        | .ok s => .ok s
        | .exc e => .ok ("❌ Error executing " ++ tool_name ++ ": " ++ e)
      else
        .ok ("❌ Unknown tool: " ++ tool_name)

/-! ## Concrete fixtures used by the scenario properties -/

/-- A generic agent state at loop entry: problem and template captured by
`grabProblem`, no wrong cases yet. -/
def st0 : AgentState := ⟨"p", "t", []⟩

/-- Environment in which the very first submission is accepted. -/
def envAccept : Nat → AttemptEnv :=
  fun _ => ⟨.reply "c", .panel "Accepted"⟩

/-- Environment in which the result panel never renders. -/
def envTimeoutW : Nat → AttemptEnv :=
  fun _ => ⟨.reply "c", .timeout⟩

/-- Environment for the `[rejected, rejected, accepted]` scenario. -/
def envC8 : Nat → AttemptEnv
  | 0 => ⟨.reply "codeA", .panel "Wrong Answer: case 1"⟩
  | 1 => ⟨.reply "codeB", .panel "Wrong Answer: case 2"⟩
  | _ + 2 => ⟨.reply "codeC", .panel "Accepted"⟩

/-- Environment in which the provider call of attempt 0 raises and every
submission is rejected. -/
def envC3 : Nat → AttemptEnv
  | 0 => ⟨.exc "network down", .panel "Wrong Answer"⟩
  | _ + 1 => ⟨.reply "fixed code", .panel "Wrong Answer"⟩

/-- Environment in which every provider call raises and every submission is
rejected. -/
def envC3W : Nat → AttemptEnv :=
  fun _ => ⟨.exc "boom", .panel "Wrong Answer"⟩

/-- A model reply wrapped in code-fence markup. -/
def fencedReply : String := "```python\nprint(1)\n```"

/-- From the specification's wording: the text begins with a code-fence
marker. -/
def hasLeadingFence (s : String) : Bool := "```".data.isPrefixOf s.data

/-- The full teardown chain of `cleanup_playwright`, in source order. -/
def canonicalTeardown : List TeardownStep :=
  [TeardownStep.closePage, TeardownStep.closeContext,
   TeardownStep.closeBrowser, TeardownStep.stopPlaywright]

/-! ## Helper lemmas about the retry loop -/

theorem solveCalls_nil : solveCalls [] = 0 := rfl

theorem solveCalls_cons_solveCall (a : Nat) (evs : List Event) :
    solveCalls (Event.solveCall a :: evs) = solveCalls evs + 1 := by
  simp [solveCalls]

theorem solveCalls_cons_writeCall (a : Nat) (c : String) (evs : List Event) :
    solveCalls (Event.writeCall a c :: evs) = solveCalls evs := by
  simp [solveCalls]

theorem solveCalls_cons_successChat (evs : List Event) :
    solveCalls (Event.successChat :: evs) = solveCalls evs := by
  simp [solveCalls]

/-- Each iteration of the loop invokes the Solver exactly once, so the
remaining fuel bounds the number of Solver invocations. -/
theorem runLoopAux_solveCalls_le (env : Nat → AttemptEnv) :
    ∀ (fuel attempt : Nat) (st : AgentState),
      solveCalls (runLoopAux env fuel attempt st).2.2 ≤ fuel := by
  intro fuel
  induction fuel with
  | zero => intro attempt st; simp [runLoopAux, solveCalls]
  | succ n ih =>
    intro attempt st
    cases hsolve : solve_problem st attempt (env attempt).llm with
    | error e => simp [runLoopAux, hsolve, solveCalls]
    | ok result_code =>
      cases hgrab : grab_result st (env attempt).panel with
      | error e =>
        simp [runLoopAux, hsolve, hgrab, solveCalls]
      | ok p =>
        obtain ⟨b, st'⟩ := p
        cases b with
        | true =>
          simp [runLoopAux, hsolve, hgrab, solveCalls]
        | false =>
          have h := ih (attempt + 1) st'
          cases hrec : runLoopAux env n (attempt + 1) st' with
          | mk r rest =>
            obtain ⟨stF, evs⟩ := rest
            rw [hrec] at h
            simp only [runLoopAux, hsolve, hgrab, hrec]
            rw [solveCalls_cons_solveCall, solveCalls_cons_writeCall]
            simp at h ⊢
            omega

/-- When the loop reports success at attempt `k`, every Solver and
Submitter invocation in the trace happened at an attempt index `≤ k`:
the `break` after an accepted verdict means no later attempt runs. -/
theorem runLoopAux_solved_bound (env : Nat → AttemptEnv) :
    ∀ (fuel attempt : Nat) (st : AgentState) (k : Nat) (st' : AgentState)
      (evs : List Event),
      runLoopAux env fuel attempt st = (.solved k, st', evs) →
      attempt ≤ k ∧
        (∀ j, Event.solveCall j ∈ evs → j ≤ k) ∧
        (∀ j c, Event.writeCall j c ∈ evs → j ≤ k) := by
  intro fuel
  induction fuel with
  | zero =>
    intro attempt st k st' evs h
    simp [runLoopAux] at h
  | succ n ih =>
    intro attempt st k st' evs h
    cases hsolve : solve_problem st attempt (env attempt).llm with
    | error e => simp [runLoopAux, hsolve] at h
    | ok result_code =>
      cases hgrab : grab_result st (env attempt).panel with
      | error e => simp [runLoopAux, hsolve, hgrab] at h
      | ok p =>
        obtain ⟨b, st''⟩ := p
        cases b with
        | true =>
          simp only [runLoopAux, hsolve, hgrab, Prod.mk.injEq,
            RunResult.solved.injEq] at h
          obtain ⟨hk, hst, hevs⟩ := h
          subst hk
          subst hevs
          refine ⟨le_refl _, ?_, ?_⟩
          · intro j hj
            simp at hj
            omega
          · intro j c hj
            simp at hj
            omega
        | false =>
          cases hrec : runLoopAux env n (attempt + 1) st'' with
          | mk r rest =>
            obtain ⟨stF, evs0⟩ := rest
            simp only [runLoopAux, hsolve, hgrab, hrec, Prod.mk.injEq] at h
            obtain ⟨h1, h2, h3⟩ := h
            subst h1
            subst h2
            subst h3
            obtain ⟨hk, hs, hw⟩ := ih (attempt + 1) st'' k stF evs0 hrec
            refine ⟨by omega, ?_, ?_⟩
            · intro j hj
              rcases List.mem_cons.mp hj with hj | hj
              · cases hj; omega
              · rcases List.mem_cons.mp hj with hj | hj
                · cases hj
                · exact hs j hj
            · intro j c hj
              rcases List.mem_cons.mp hj with hj | hj
              · cases hj
              · rcases List.mem_cons.mp hj with hj | hj
                · cases hj; omega
                · exact hw j c hj

/-- Every iteration with fuel left begins by invoking the Solver: the trace
of a run with positive fuel starts with `solveCall attempt`. -/
theorem runLoopAux_head (env : Nat → AttemptEnv) (fuel attempt : Nat)
    (st : AgentState) :
    ∃ rest, (runLoopAux env (fuel + 1) attempt st).2.2 =
      Event.solveCall attempt :: rest := by
  cases hsolve : solve_problem st attempt (env attempt).llm with
  | error e =>
    refine ⟨[], ?_⟩
    simp [runLoopAux, hsolve]
  | ok result_code =>
    cases hgrab : grab_result st (env attempt).panel with
    | error e =>
      refine ⟨[Event.writeCall attempt result_code], ?_⟩
      simp [runLoopAux, hsolve, hgrab]
    | ok p =>
      obtain ⟨b, st'⟩ := p
      cases b with
      | true =>
        refine ⟨[Event.writeCall attempt result_code, Event.successChat], ?_⟩
        simp [runLoopAux, hsolve, hgrab]
      | false =>
        cases hrec : runLoopAux env fuel (attempt + 1) st' with
        | mk r rest =>
          obtain ⟨stF, evs0⟩ := rest
          refine ⟨Event.writeCall attempt result_code :: evs0, ?_⟩
          simp [runLoopAux, hsolve, hgrab, hrec]

/-- `grab_result` never removes entries from `wrong_case`: the state it
returns extends the input state's list. -/
theorem grab_result_wrong_case_mono (st : AgentState) (pr : PanelRead)
    (b : Bool) (st' : AgentState) (h : grab_result st pr = .ok (b, st')) :
    ∃ tail, st'.wrong_case = st.wrong_case ++ tail := by
  cases pr with
  | timeout => simp [grab_result] at h
  | panel t =>
    simp only [grab_result] at h
    split at h
    · injection h with h2
      injection h2 with hb hst
      subst hst
      exact ⟨[], by simp⟩
    · injection h with h2
      injection h2 with hb hst
      subst hst
      exact ⟨[t], rfl⟩

/-- The retry loop only ever appends to `wrong_case` (through
`grab_result`); entries are never removed. -/
theorem runLoopAux_wrong_case_mono (env : Nat → AttemptEnv) :
    ∀ (fuel attempt : Nat) (st : AgentState),
      ∃ tail, ((runLoopAux env fuel attempt st).2.1).wrong_case =
        st.wrong_case ++ tail := by
  intro fuel
  induction fuel with
  | zero => intro attempt st; exact ⟨[], by simp [runLoopAux]⟩
  | succ n ih =>
    intro attempt st
    cases hsolve : solve_problem st attempt (env attempt).llm with
    | error e => exact ⟨[], by simp [runLoopAux, hsolve]⟩
    | ok result_code =>
      cases hgrab : grab_result st (env attempt).panel with
      | error e => exact ⟨[], by simp [runLoopAux, hsolve, hgrab]⟩
      | ok p =>
        obtain ⟨b, st'⟩ := p
        obtain ⟨tail1, ht1⟩ := grab_result_wrong_case_mono st _ b st' hgrab
        cases b with
        | true =>
          refine ⟨tail1, ?_⟩
          simp [runLoopAux, hsolve, hgrab, ht1]
        | false =>
          cases hrec : runLoopAux env n (attempt + 1) st' with
          | mk r rest =>
            obtain ⟨stF, evs0⟩ := rest
            obtain ⟨tail2, ht2⟩ := ih (attempt + 1) st'
            rw [hrec] at ht2
            refine ⟨tail1 ++ tail2, ?_⟩
            simp only [runLoopAux, hsolve, hgrab, hrec]
            simp only [] at ht2
            rw [ht2, ht1, List.append_assoc]

/-! ## Claim theorems -/

/-- C1: for every attempt bound (the code fixes `while attempt < 5`), the
Retry Controller's loop in `LeetCodeAgent.start` invokes the Solver
(`solve_problem`) at most `maxAttempts` times.  Termination of the loop is
witnessed by `runLoopAux` being a total, structurally recursive function:
`attempt` increases by one per iteration and the loop guard
`attempt < maxAttempts` bounds the iteration count. -/
theorem retry_loop_bounded_solver_calls :
    ∀ (maxAttempts : Nat) (st : AgentState) (env : Nat → AttemptEnv),
      solveCalls (start_retry_loop maxAttempts st env).2.2 ≤ maxAttempts ∧
      solveCalls (start_retry_loop MAX_ATTEMPTS st env).2.2 ≤ 5 := by
  intro maxA st env
  exact ⟨runLoopAux_solveCalls_le env maxA 0 st,
    runLoopAux_solveCalls_le env 5 0 st⟩

/-- C2: if `grab_result` reports accepted at attempt `k`, the loop breaks
immediately: every `solve_problem` and every `writeAnswer` invocation in
the trace happened at an attempt index `≤ k`; none occurs for `k + 1`. -/
theorem accepted_short_circuits :
    ∀ (maxAttempts : Nat) (st st' : AgentState) (env : Nat → AttemptEnv)
      (k : Nat) (evs : List Event),
      start_retry_loop maxAttempts st env = (.solved k, st', evs) →
      (∀ j, Event.solveCall j ∈ evs → j ≤ k) ∧
      (∀ j c, Event.writeCall j c ∈ evs → j ≤ k) := by
  intro maxA st st' env k evs h
  exact (runLoopAux_solved_bound env maxA 0 st k st' evs h).2

/-- Witness for C2: a concrete run accepted at attempt 0, with the
hypothesis discharged by evaluation. -/
theorem accepted_short_circuits_witness :
    start_retry_loop 5 st0 envAccept =
      (.solved 0, st0,
        [Event.solveCall 0, Event.writeCall 0 "c", Event.successChat]) ∧
    (0 : Nat) ≤ 0 :=
  ⟨by decide,
   (accepted_short_circuits 5 st0 st0 envAccept 0
      [Event.solveCall 0, Event.writeCall 0 "c", Event.successChat]
      (by decide)).1 0 (by decide)⟩

/-- C4: when the result panel never renders, `grab_result` raises
Playwright's `TimeoutError` — a distinct error kind, not the `False` of a
rejected verdict — the run aborts with that error, and nothing is appended
to the `wrong_case` history (the whole agent state is unchanged). -/
theorem verdict_timeout_not_rejected :
    ∀ (st : AgentState) (env : Nat → AttemptEnv),
      (env 0).panel = PanelRead.timeout →
      grab_result st PanelRead.timeout = .error PyError.timeoutError ∧
      (start_retry_loop MAX_ATTEMPTS st env).1 = .crashed PyError.timeoutError ∧
      (start_retry_loop MAX_ATTEMPTS st env).2.1 = st := by
  intro st env h
  have hs : solve_problem st 0 (env 0).llm =
      .ok (chat (env 0).llm
        (initialPrompt st.problem_text st.editor_text st.wrong_case.getLast?)) := by
    simp [solve_problem]
  have hrun : runLoopAux env (4 + 1) 0 st =
      (.crashed PyError.timeoutError, st,
        [Event.solveCall 0,
         Event.writeCall 0 (chat (env 0).llm
           (initialPrompt st.problem_text st.editor_text st.wrong_case.getLast?))]) := by
    simp [runLoopAux, hs, h, grab_result]
  refine ⟨rfl, ?_, ?_⟩
  · show (runLoopAux env (4 + 1) 0 st).1 = _
    rw [hrun]
  · show (runLoopAux env (4 + 1) 0 st).2.1 = st
    rw [hrun]

/-- Witness for C4: the timeout environment, hypothesis discharged by
evaluation. -/
theorem verdict_timeout_not_rejected_witness :
    grab_result st0 PanelRead.timeout = .error PyError.timeoutError ∧
    (start_retry_loop MAX_ATTEMPTS st0 envTimeoutW).1 =
      .crashed PyError.timeoutError ∧
    (start_retry_loop MAX_ATTEMPTS st0 envTimeoutW).2.1 = st0 :=
  verdict_timeout_not_rejected st0 envTimeoutW rfl

/-- C7: `writeAnswer` with `autoSubmit = false` writes the candidate into
the editor (the clipboard-paste of the code appears in its action list) but
the submit-button click is never among its actions, no matter how many
consecutive calls are made and with whatever candidate texts. -/
theorem write_without_autoSubmit_never_submits :
    ∀ (is_mac : Bool) (codes : List String) (code : String),
      PageAction.clipboardWrite code ∈ writeAnswer is_mac code false ∧
      PageAction.click submitButtonSelector ∉
        (codes.map fun c => writeAnswer is_mac c false).flatten := by
  intro is_mac codes code
  constructor
  · simp [writeAnswer]
  · intro hmem
    rw [List.mem_flatten] at hmem
    obtain ⟨l, hl, hx⟩ := hmem
    rw [List.mem_map] at hl
    obtain ⟨c, hc, rfl⟩ := hl
    simp [writeAnswer, submitButtonSelector] at hx

/-- C8: with an attempt bound of 3 and verdict sequence
[rejected, rejected, accepted], the loop reports success at attempt index 2
and `wrong_case` holds exactly the two rejected panel texts, in order;
moreover, for every run the `wrong_case` history only grows — the final
list extends the initial one (entries are appended on each rejected verdict
and never removed). -/
theorem scenario_two_rejects_then_accept :
    start_retry_loop 3 st0 envC8 =
      (.solved 2,
        ⟨"p", "t", ["Wrong Answer: case 1", "Wrong Answer: case 2"]⟩,
        [Event.solveCall 0, Event.writeCall 0 "codeA",
         Event.solveCall 1, Event.writeCall 1 "codeB",
         Event.solveCall 2, Event.writeCall 2 "codeC", Event.successChat]) ∧
    (∀ (maxAttempts : Nat) (st : AgentState) (env : Nat → AttemptEnv),
      ∃ tail, ((start_retry_loop maxAttempts st env).2.1).wrong_case =
        st.wrong_case ++ tail) := by
  constructor
  · decide
  · intro maxA st env
    exact runLoopAux_wrong_case_mono env maxA 0 st

/-- One-step unfolding of the loop on a rejected verdict: the iteration
records its Solver and Submitter events and continues with the next
attempt on the updated state. -/
theorem runLoopAux_step_reject (env : Nat → AttemptEnv) (fuel attempt : Nat)
    (st st' : AgentState) (code : String)
    (hs : solve_problem st attempt (env attempt).llm = .ok code)
    (hg : grab_result st (env attempt).panel = .ok (false, st')) :
    runLoopAux env (fuel + 1) attempt st =
      ((runLoopAux env fuel (attempt + 1) st').1,
       (runLoopAux env fuel (attempt + 1) st').2.1,
       Event.solveCall attempt :: Event.writeCall attempt code ::
         (runLoopAux env fuel (attempt + 1) st').2.2) := by
  cases hrec : runLoopAux env fuel (attempt + 1) st' with
  | mk r p =>
    obtain ⟨stF, evs⟩ := p
    simp only [runLoopAux, hs, hg, hrec]

/-- Counterexample to C3 as stated: when the provider call of attempt 0
raises, the error is not surfaced to the loop as a typed error — the string
`"Error generating response: network down"` is handed to `writeAnswer` as
the candidate solution text, and the loop keeps running: the failing
attempt consumes a slot and all 5 attempts execute to exhaustion. -/
theorem chat_error_swallowed_cx :
    Event.writeCall 0 "Error generating response: network down"
        ∈ (start_retry_loop MAX_ATTEMPTS st0 envC3).2.2 ∧
    solveCalls (start_retry_loop MAX_ATTEMPTS st0 envC3).2.2 = 5 ∧
    (start_retry_loop MAX_ATTEMPTS st0 envC3).1 = RunResult.exhausted := by
  decide

/-- C3 (amended): an exception inside `AiAgent.chat` is caught by `chat`
itself, which returns the string `"Error generating response: <e>"`;
`solve_problem` returns that string as the candidate solution text (never a
typed error), and the Retry Controller submits it and continues with the
next attempt — the failure consumes an attempt slot instead of aborting the
loop. -/
theorem chat_error_swallowed_amended :
    ∀ (st : AgentState) (e umsg : String) (env : Nat → AttemptEnv),
      chat (.exc e) umsg = "Error generating response: " ++ e ∧
      solve_problem st 0 (.exc e) = .ok ("Error generating response: " ++ e) ∧
      ((env 0).llm = .exc e → (env 0).panel = PanelRead.panel "Wrong Answer" →
        Event.writeCall 0 ("Error generating response: " ++ e)
            ∈ (start_retry_loop MAX_ATTEMPTS st env).2.2 ∧
        Event.solveCall 1 ∈ (start_retry_loop MAX_ATTEMPTS st env).2.2) := by
  intro st e umsg env
  refine ⟨rfl, rfl, ?_⟩
  intro h1 h2
  have hs : solve_problem st 0 (env 0).llm =
      .ok ("Error generating response: " ++ e) := by
    rw [h1]
    rfl
  have hg : grab_result st (env 0).panel =
      .ok (false, { st with wrong_case := st.wrong_case ++ ["Wrong Answer"] }) := by
    rw [h2]
    rfl
  have hrun := runLoopAux_step_reject env 4 0 st
    { st with wrong_case := st.wrong_case ++ ["Wrong Answer"] }
    ("Error generating response: " ++ e) hs hg
  obtain ⟨rest, hrest⟩ :=
    runLoopAux_head env 3 1 { st with wrong_case := st.wrong_case ++ ["Wrong Answer"] }
  have hrest4 : (runLoopAux env 4 1
      { st with wrong_case := st.wrong_case ++ ["Wrong Answer"] }).2.2 =
      Event.solveCall 1 :: rest := hrest
  constructor
  · show Event.writeCall 0 ("Error generating response: " ++ e)
        ∈ (runLoopAux env (4 + 1) 0 st).2.2
    rw [hrun]
    simp
  · show Event.solveCall 1 ∈ (runLoopAux env (4 + 1) 0 st).2.2
    rw [hrun]
    simp only [hrest4]
    simp

/-- Witness for C3 (amended): the all-failures environment, hypotheses
discharged by evaluation. -/
theorem chat_error_swallowed_amended_witness :
    Event.writeCall 0 ("Error generating response: " ++ "boom")
        ∈ (start_retry_loop MAX_ATTEMPTS st0 envC3W).2.2 ∧
    Event.solveCall 1 ∈ (start_retry_loop MAX_ATTEMPTS st0 envC3W).2.2 :=
  (chat_error_swallowed_amended st0 "boom" "m" envC3W).2.2 rfl rfl

/-- Counterexample to C5 as stated: a model reply wrapped in code fences is
returned by `solve_problem` verbatim — the returned candidate text still
begins with a fence marker; no stripping step exists in the code. -/
theorem solver_fence_strip_cx :
    solve_problem st0 0 (.reply fencedReply) = .ok fencedReply ∧
    hasLeadingFence fencedReply = true := by
  exact ⟨rfl, by decide⟩

/-- C5 (amended): `solve_problem` performs no stripping of code-fence
markup — it returns the model's reply exactly as `chat` delivered it; the
code relies solely on the prompt instruction ("Return ONLY the code without
any code block ...") to keep fences out of the reply. -/
theorem solve_problem_returns_reply_verbatim :
    ∀ (st : AgentState) (attempt : Nat) (r : String),
      attempt = 0 ∨ st.wrong_case ≠ [] →
      solve_problem st attempt (.reply r) = .ok r := by
  intro st attempt r h
  rcases h with h | h
  · subst h
    rfl
  · cases attempt with
    | zero => rfl
    | succ n =>
      cases hlast : st.wrong_case.getLast? with
      | none => exact absurd (List.getLast?_eq_none_iff.mp hlast) h
      | some wc => simp [solve_problem, hlast, chat]

/-- Witness for C5 (amended): concrete reply passed through unchanged. -/
theorem solve_problem_returns_reply_verbatim_witness :
    ((0 : Nat) = 0 ∨ st0.wrong_case ≠ []) ∧
    solve_problem st0 0 (.reply "code") = .ok "code" :=
  ⟨Or.inl rfl, solve_problem_returns_reply_verbatim st0 0 "code" (Or.inl rfl)⟩

/-- Counterexample to C6 as stated: `close_browser` with no open session
does NOT return the shared no-session message — it returns its own fixed
string `"Browser has already been closed."`. -/
theorem close_browser_no_session_message_cx :
    (close_browser none).1 ≠ no_browser_session_message := by
  decide

/-- C6 (amended): each of the four page operations (`goto_url`,
`go_to_daily_problem`, `get_problem_description`, `write_solution_code`)
invoked with no open session returns the one fixed no-session message and
performs no page action; `close_browser` with no open session performs no
action either but returns its own distinct fixed message
`"Browser has already been closed."`. -/
theorem no_session_guard_behavior :
    ∀ (url code : String),
      goto_url none url = (no_browser_session_message, []) ∧
      go_to_daily_problem none = (no_browser_session_message, []) ∧
      get_problem_description none = (no_browser_session_message, []) ∧
      write_solution_code none code = (no_browser_session_message, []) ∧
      close_browser none = ("Browser has already been closed.", none) :=
  fun _ _ => ⟨rfl, rfl, rfl, rfl, rfl⟩

/-- Counterexample to C9 as stated: when `page.close()` raises, the single
`try`/`except` around the whole chain catches the exception but the
remaining teardown steps do NOT run — `browser.close()` (and
`playwright.stop()`) are skipped. -/
theorem teardown_skips_remaining_steps_cx :
    cleanup_playwright ⟨some "boom", none, none, none⟩ =
      ([TeardownStep.closePage], some "boom") ∧
    TeardownStep.closeBrowser ∉
      (cleanup_playwright ⟨some "boom", none, none, none⟩).1 := by
  decide

/-- C9 (amended): teardown attempts page, then context, then browser, then
driver, in that order (the attempted steps always form a prefix of that
chain, and the fault-free run performs all four); an exception raised by a
teardown step is caught — `cleanup_playwright` returns it as data and
`__exit__` still returns `False` — but it aborts the chain: when
`page.close()` raises, only `closePage` was attempted and the remaining
steps are skipped. -/
theorem teardown_order_fault_tolerance :
    ∀ (f : TeardownFaults) (hasRes body_raised : Bool) (e : String),
      (∃ tail, (cleanup_playwright f).1 ++ tail = canonicalTeardown) ∧
      cleanup_playwright ⟨none, none, none, none⟩ = (canonicalTeardown, none) ∧
      (f.pageClose = some e →
        cleanup_playwright f = ([TeardownStep.closePage], some e)) ∧
      (playwrightManagerExit hasRes f body_raised).1 = false := by
  intro f hasRes br e
  obtain ⟨p, c, b, pw⟩ := f
  refine ⟨?_, rfl, ?_, ?_⟩
  · cases p <;> cases c <;> cases b <;> cases pw <;> exact ⟨_, rfl⟩
  · intro hp
    cases p with
    | none => simp at hp
    | some a =>
      simp only [Option.some.injEq] at hp
      subst hp
      rfl
  · cases hasRes <;> rfl

/-- Witness for C9 (amended): a concrete faulting teardown, hypothesis
discharged by `rfl`. -/
theorem teardown_order_fault_tolerance_witness :
    cleanup_playwright ⟨some "x", none, none, none⟩ =
      ([TeardownStep.closePage], some "x") :=
  (teardown_order_fault_tolerance ⟨some "x", none, none, none⟩ true false
    "x").2.2.1 rfl

/-- Counterexample to C10 as stated: `execute_tool_call` is not total over
all inputs — `tool_call["name"]` / `tool_call["args"]` are read before the
`try`, so a tool-call dict missing those keys makes the function raise
`KeyError`. -/
theorem execute_tool_call_keyerror_cx :
    execute_tool_call ⟨none, none⟩ (.ok "unused") = .error PyError.keyError :=
  rfl

/-- C10 (amended): for every tool call carrying `name` and `args` keys,
`execute_tool_call` never raises: a name outside
CreateFile / ReadFile / ListFiles yields the unknown-tool message
`"❌ Unknown tool: <name>"`, and an exception raised by the dispatched
handler is caught and rendered as `"❌ Error executing <name>: <e>"`.
Totality over arbitrary inputs fails only for dicts missing the two keys,
which are subscripted before the `try`. -/
theorem execute_tool_call_wellformed_total :
    ∀ (n : String) (a : Unit) (outcome : CallOutcome) (e : String),
      (∃ r, execute_tool_call ⟨some n, some a⟩ outcome = .ok r) ∧
      (n ≠ "CreateFile" → n ≠ "ReadFile" → n ≠ "ListFiles" →
        execute_tool_call ⟨some n, some a⟩ outcome =
          .ok ("❌ Unknown tool: " ++ n)) ∧
      execute_tool_call ⟨some "CreateFile", some a⟩ (.exc e) =
        .ok ("❌ Error executing CreateFile: " ++ e) ∧
      execute_tool_call ⟨some "ReadFile", some a⟩ (.exc e) =
        .ok ("❌ Error executing ReadFile: " ++ e) ∧
      execute_tool_call ⟨some "ListFiles", some a⟩ (.exc e) =
        .ok ("❌ Error executing ListFiles: " ++ e) := by
  intro n a outcome e
  refine ⟨?_, ?_, rfl, rfl, rfl⟩
  · by_cases h1 : n = "CreateFile"
    · subst h1
      cases outcome <;> exact ⟨_, rfl⟩
    · by_cases h2 : n = "ReadFile"
      · subst h2
        cases outcome <;> exact ⟨_, rfl⟩
      · by_cases h3 : n = "ListFiles"
        · subst h3
          cases outcome <;> exact ⟨_, rfl⟩
        · refine ⟨"❌ Unknown tool: " ++ n, ?_⟩
          simp [execute_tool_call, h1, h2, h3]
  · intro h1 h2 h3
    simp [execute_tool_call, h1, h2, h3]

/-- Witness for C10 (amended): an unknown tool name, hypotheses discharged
by evaluation. -/
theorem execute_tool_call_wellformed_total_witness :
    execute_tool_call ⟨some "Weather", some ()⟩ (.ok "hi") =
      .ok ("❌ Unknown tool: " ++ "Weather") :=
  (execute_tool_call_wellformed_total "Weather" () (.ok "hi") "e").2.1
    (by decide) (by decide) (by decide)
